import Mathlib

/- Verification of the progression-and-evaluation core of the Pravya quiz-game
   backend (Pravya_backend/main.py and Pravya_backend/main copy 2.py).

   Modelling conventions for the shallow embedding:
   - Python floats are modelled as rationals;
   - Python ints are modelled as Lean Int;
   - Python strings are modelled as Lean String, with the Python string
     operations (lower, strip, substring membership, count) defined over the
     underlying character lists;
   - the Python dict team_trust (fixed string keys to floats) is modelled as an
     association list; the per-answer updates touch every value uniformly;
   - the external Supabase question table is an external collaborator: a query
     at a given offset is modelled as a function from the offset to an optional
     row, and random.choice over a fetched row list is modelled by an index
     supplied as an extra argument, reduced modulo the list length. -/

namespace Pravya

/- Python string primitives. -/

/-- Python str.lower, per character. -/
def pyLower (s : List Char) : List Char := s.map Char.toLower

/-- Python str.strip: drop whitespace at both ends. -/
def pyStrip (s : List Char) : List Char :=
  ((s.dropWhile Char.isWhitespace).reverse.dropWhile Char.isWhitespace).reverse

/-- Composition s.lower().strip() used by main copy 2.py. -/
def lowerStrip (s : String) : List Char := pyStrip (pyLower s.toList)

/-- Does the second list start with the first one? -/
def startsWithSeq : List Char → List Char → Bool
  | [], _ => true
  | _ :: _, [] => false
  | a :: as, b :: bs => a == b && startsWithSeq as bs

/-- Python substring membership (needle in hay) on character lists. -/
def hasSubSeq (needle : List Char) : List Char → Bool
  | [] => needle.isEmpty
  | c :: rest => startsWithSeq needle (c :: rest) || hasSubSeq needle rest

/-- Python substring membership on strings. -/
def pySubstr (needle hay : String) : Bool := hasSubSeq needle.toList hay.toList

/-- Python code.count of the two-character pattern of two equality signs,
counting non-overlapping occurrences left to right. -/
def pyCountEqEq : List Char → Nat
  | '=' :: '=' :: rest => 1 + pyCountEqEq rest
  | _ :: rest => pyCountEqEq rest
  | [] => 0

/-- Python int() applied to a float: truncation toward zero. -/
def pyInt (q : ℚ) : Int := if q < 0 then q.ceil else q.floor

/- Data model of main.py (Pydantic GameState with its defaults). -/

structure GameState where
  player_level : Int
  experience_points : Int
  current_question_index : Int
  performance_score : ℚ
  streak_count : Int
  badges : List String
  team_trust : List (String × ℚ)
  story_path : String
  boss_battle_ready : Bool
  session_questions_answered : Int
  selected_mastery : String
deriving DecidableEq

/-- The Pydantic defaults of GameState in main.py. -/
def initialGameState : GameState :=
  { player_level := 1
    experience_points := 0
    current_question_index := 0
    performance_score := 100
    streak_count := 0
    badges := []
    team_trust := [("senior_dev", 100), ("security_lead", 100), ("junior_dev", 100)]
    story_path := "normal"
    boss_battle_ready := false
    session_questions_answered := 0
    selected_mastery := "python" }

/- update_game_state_after_answer (main.py, lines 641-704), split into the
   statement groups of the Python body.  The Python function first builds a
   fresh copy of the input state and mutates only that copy; the copy and the
   statement-by-statement execution are made explicit further below for the
   exception-atomicity analysis. -/

/-- Statement group: experience/streak/trust update depending on correctness. -/
def step_answer (ic : Bool) (score : ℚ) (st : GameState) : GameState :=
  if ic then
    { st with
      experience_points := st.experience_points + pyInt score
      streak_count := st.streak_count + 1
      team_trust := st.team_trust.map (fun kv => (kv.1, min 100 (kv.2 + 2))) }
  else
    { st with
      streak_count := 0
      team_trust := st.team_trust.map (fun kv => (kv.1, max 0 (kv.2 - 5))) }

/-- Statement group: rolling performance average. -/
def step_performance (score : ℚ) (st : GameState) : GameState :=
  { st with performance_score := st.performance_score * (8/10) + score * (2/10) }

/-- Statement group: level progression (no reset of experience_points). -/
def step_level (st : GameState) : GameState :=
  if st.experience_points ≥ st.player_level * 200 then
    { st with player_level := st.player_level + 1, boss_battle_ready := true }
  else st

/-- The new_badges list built by the badge system block. -/
def new_badges (score : ℚ) (st : GameState) : List String :=
  (if st.streak_count = 3 ∧ "code_warrior" ∉ st.badges then ["code_warrior"] else [])
  ++ (if st.streak_count = 5 ∧ "debugging_master" ∉ st.badges then ["debugging_master"] else [])
  ++ (if score ≥ 95 ∧ "perfectionist" ∉ st.badges then ["perfectionist"] else [])
  ++ (if st.performance_score ≥ 90 ∧ "elite_developer" ∉ st.badges then ["elite_developer"] else [])

/-- Statement group: badges.extend(new_badges). -/
def step_badges (score : ℚ) (st : GameState) : GameState :=
  { st with badges := st.badges ++ new_badges score st }

/-- Statement group: increment the two monotone counters. -/
def step_counters (st : GameState) : GameState :=
  { st with
    current_question_index := st.current_question_index + 1
    session_questions_answered := st.session_questions_answered + 1 }

/- The body of update_game_state_after_answer runs inside a try block whose
   except branch returns the original argument.  We model the memory visible to
   the function as the pair (game_state, updated_state) and each statement
   group as a transformer of that pair: every group writes only the second
   component, mirroring that the Python code mutates only the fresh copy. -/

/-- The statement groups of the try block, in program order.  The first entry
is the construction of updated_state as a field-by-field copy of game_state. -/
def updSteps (ic : Bool) (score : ℚ) :
    List (GameState × GameState → GameState × GameState) :=
  [fun m => (m.1, m.1),
   fun m => (m.1, step_answer ic score m.2),
   fun m => (m.1, step_performance score m.2),
   fun m => (m.1, step_level m.2),
   fun m => (m.1, step_badges score m.2),
   fun m => (m.1, step_counters m.2)]

/-- Run a list of transformers in order. -/
def runSteps {α : Type} (l : List (α → α)) (m : α) : α :=
  l.foldl (fun x f => f x) m

/-- update_game_state_after_answer (main.py): the value returned when the try
block runs to completion. -/
def update_game_state_after_answer (g : GameState) (ic : Bool) (score : ℚ) :
    GameState :=
  (runSteps (updSteps ic score) (g, g)).2

/-- The value actually returned by update_game_state_after_answer when an
exception interrupts the try block after its first k statement groups: the
except branch returns the game_state component of the memory. -/
def update_result_with_fault (ic : Bool) (score : ℚ) (k : Nat) (g : GameState) :
    GameState :=
  if k < (updSteps ic score).length then
    (runSteps ((updSteps ic score).take k) (g, g)).1
  else
    update_game_state_after_answer g ic score

/-- Iterate the state mutator over a list of (is_correct, score) turns. -/
def applyTurns (turns : List (Bool × ℚ)) (g : GameState) : GameState :=
  turns.foldl (fun st t => update_game_state_after_answer st t.1 t.2) g

/-- The vitality scalar of main.py (performance_score) lies in [0,100]. -/
def vitalityBounded (g : GameState) : Prop :=
  0 ≤ g.performance_score ∧ g.performance_score ≤ 100

/-- Every team_trust entry lies in [0,100]. -/
def trustBounded (g : GameState) : Prop :=
  ∀ kv ∈ g.team_trust, 0 ≤ kv.2 ∧ kv.2 ≤ 100

/-- Conjunction of the two boundedness invariants of main.py. -/
def stateBounded (g : GameState) : Prop := vitalityBounded g ∧ trustBounded g

instance (g : GameState) : Decidable (vitalityBounded g) := by
  unfold vitalityBounded; infer_instance

instance (g : GameState) : Decidable (trustBounded g) := by
  unfold trustBounded; infer_instance

instance (g : GameState) : Decidable (stateBounded g) := by
  unfold stateBounded; infer_instance

/- Question selection of main.py: determine_difficulty_progression (lines
   217-236), generate_boss_battle_question, get_question_from_db (lines
   146-180) and the decision part of the /get_next_question endpoint (lines
   710-762).  The Supabase questions table is an external collaborator and is
   modelled as a list of rows; random.choice over a fetched row list is
   modelled by an extra index argument reduced modulo the list length. -/

structure MQ where
  id : String
  mastery : String
  difficulty_level : String
  difficulty_rating : Int
  title : String
  question_text : String
  expected_outcome : String
deriving DecidableEq

/-- The hardcoded python boss question of generate_boss_battle_question
(question_text and expected_outcome elided to their titles for brevity;
they play no role in any property). -/
def bossPython : MQ :=
  { id := "boss-python-1", mastery := "python", difficulty_level := "boss"
    difficulty_rating := 95
    title := "The Null Pointer Phantom - Final Confrontation"
    question_text := "The rogue AI has corrupted our core authentication system with subtle vulnerabilities."
    expected_outcome := "A robust authentication function" }

/-- The hardcoded react boss question of generate_boss_battle_question. -/
def bossReact : MQ :=
  { id := "boss-react-1", mastery := "react", difficulty_level := "boss"
    difficulty_rating := 95
    title := "The State Corruption Demon - Component Crisis"
    question_text := "The AI has injected malicious state mutations into our React application."
    expected_outcome := "A React component" }

/-- The hardcoded mathematics boss question of generate_boss_battle_question. -/
def bossMath : MQ :=
  { id := "boss-math-1", mastery := "mathematics", difficulty_level := "boss"
    difficulty_rating := 95
    title := "The Algorithm Overlord - Complexity Chaos"
    question_text := "The AI is overwhelming our systems with exponential-time algorithms."
    expected_outcome := "An optimal algorithm" }

/-- generate_boss_battle_question (main.py): boss_questions.get(mastery,
boss_questions of python). -/
def generate_boss_battle_question (mastery : String) : MQ :=
  if mastery = "react" then bossReact
  else if mastery = "mathematics" then bossMath
  else bossPython

/-- random.choice over a fetched nonempty row list, with the randomness
supplied as an index reduced modulo the length; none exactly on the empty
list (where the Python code never calls random.choice). -/
def pyRandomChoice {α : Type} (l : List α) (r : Nat) : Option α :=
  l.get? (r % l.length)

/-- get_question_from_db (main.py, lines 146-180): boss tier is served from
the built-in boss questions; otherwise an exact (mastery, difficulty_level)
match is tried and, if no row matches, a single fallback keeping only the
mastery filter; none when the mastery has no rows at all. -/
def get_question_from_db (db : List MQ) (r1 r2 : Nat)
    (difficulty_level mastery : String) : Option MQ :=
  if difficulty_level = "boss" then some (generate_boss_battle_question mastery)
  else
    match pyRandomChoice (db.filter fun q =>
        decide (q.mastery = mastery) && decide (q.difficulty_level = difficulty_level)) r1 with
    | some q => some q
    | none => pyRandomChoice (db.filter fun q => decide (q.mastery = mastery)) r2

/-- determine_difficulty_progression (main.py, lines 217-236). -/
def determine_difficulty_progression (game_state : GameState) : String × String :=
  let difficulty :=
    if game_state.session_questions_answered < 2 then "medium"
    else if game_state.session_questions_answered < 4 then "hard"
    else "boss"
  (difficulty, game_state.selected_mastery)

/-- Numeric rank of a difficulty tier, for stating monotonicity. -/
def tierRank (d : String) : Nat :=
  if d = "medium" then 0 else if d = "hard" then 1 else if d = "boss" then 2 else 0

/-- The decision data assembled by the /get_next_question endpoint of main.py
before the narrative wrap. -/
structure StoryDecision where
  is_boss_battle : Bool
  urgency_level : String
  time_limit : Option Int
  difficulty : String
  mastery : String
  question : MQ
  updated_game_state : GameState
deriving DecidableEq

/-- The boss-battle check of the /get_next_question endpoint (main.py line
718). -/
def is_boss_battle_check (game_state : GameState) : Bool :=
  game_state.boss_battle_ready ||
    decide (game_state.session_questions_answered ≥ 4)

/-- The /get_next_question endpoint of main.py (lines 710-765).  The decision
variables (boss flag, urgency, time limit, difficulty/mastery progression,
question lookup) follow lines 717-732; narrative_ok says whether the external
generate_content call made for the immersive narrative succeeds.  The error
paths are deterministic in the source and modelled as the error value with
the surfaced HTTP status: when the question lookup yields no row, the
HTTPException(404) raised at line 732 is caught by the blanket
except Exception at line 764 and surfaced as HTTP 500; when the request is
flagged as a boss battle, line 736 calls generate_boss_battle_narrative,
which is defined only nested inside generate_immersive_narrative (line 390)
and never at module level, so the call raises NameError and the blanket
handler returns HTTP 500; when the immersive-narrative call fails on the
unflagged path, the fallback code of lines 430-438 references the unbound
boss_name, and the resulting NameError is surfaced as HTTP 500 as well. -/
def get_next_question (db : List MQ) (r1 r2 : Nat) (narrative_ok : Bool)
    (game_state : GameState) : Except Nat StoryDecision :=
  let is_boss_battle := is_boss_battle_check game_state
  let urgency_level :=
    if is_boss_battle then "critical"
    else if game_state.performance_score < 60 then "high" else "medium"
  let time_limit : Option Int := if is_boss_battle then some 600 else none
  let dm := determine_difficulty_progression game_state
  match get_question_from_db db r1 r2 dm.1 dm.2 with
  | none => Except.error 500
  | some q =>
      if is_boss_battle then Except.error 500
      else if narrative_ok then
        Except.ok
          { is_boss_battle := is_boss_battle, urgency_level := urgency_level
            time_limit := time_limit, difficulty := dm.1, mastery := dm.2
            question := q, updated_game_state := game_state }
      else Except.error 500

/- Answer evaluation of main.py: analyze_code_quality (lines 615-639) and the
   two service-failure paths of evaluate_user_answer (lines 543-613). -/

/-- analyze_code_quality (main.py, lines 615-639).  The has_comments flag of
the source is computed but never used and is omitted; the enclosing
try/except cannot fire since the body is total here. -/
def analyze_code_quality (user_answer : String) (question_data : MQ) : Bool :=
  let code := pyStrip user_answer.toList
  if code.length < 5 then false
  else
    let has_assignment := code.contains '=' && !(code.count '=' == pyCountEqEq code)
    let has_keywords :=
      ["def", "class", "if", "for", "while", "in", "import"].any fun k =>
        hasSubSeq k.toList code
    let question_text := pyLower question_data.question_text.toList
    if hasSubSeq "list".toList question_text || hasSubSeq "array".toList question_text then
      let has_list_operations :=
        ["[", "]", "append", "in"].any fun op => hasSubSeq op.toList code
      has_assignment && (has_keywords || has_list_operations)
    else
      has_assignment && decide (code.length > 20)

/-- The two service-failure modes of the external judgment call in
evaluate_user_answer: the Gemini model handle is not configured (unavailable),
or generate_content raises. -/
inductive ServiceFailure where
  | unavailable : ServiceFailure
  | raises : ServiceFailure
deriving DecidableEq

/-- evaluate_user_answer (main.py) restricted to the two service-failure
paths: the model-unconfigured branch judges by stripped answer length alone;
the exception branch delegates to analyze_code_quality; both return the fixed
scores 75/25 and return normally instead of propagating an error. -/
def evaluate_user_answer_onFailure (f : ServiceFailure) (user_answer : String)
    (question_data : MQ) : Bool × ℚ :=
  match f with
  | .unavailable =>
      let is_correct := decide ((pyStrip user_answer.toList).length > 10)
      (is_correct, if is_correct then 75 else 25)
  | .raises =>
      let is_correct := analyze_code_quality user_answer question_data
      (is_correct, if is_correct then 75 else 25)

/-- Modelled from the spec: the single fallback heuristic the claim describes,
non-trivial answer length AND presence of a domain syntax token (assignment,
control-flow keyword, collection indexing). -/
def spec_fallback_heuristic (user_answer : String) : Bool :=
  decide ((pyStrip user_answer.toList).length > 10) &&
    (["=", "def", "class", "if", "for", "while", "in", "import", "[", "]"].any
      fun t => hasSubSeq t.toList user_answer.toList)

/-- Modelled from the spec: Python round() (round half to even), which the
claim asserts the mutator adds to experience_points. -/
def round_spec (q : ℚ) : Int :=
  if q - ⌊q⌋ < 1/2 then ⌊q⌋
  else if q - ⌊q⌋ > 1/2 then ⌊q⌋ + 1
  else if 2 ∣ ⌊q⌋ then ⌊q⌋ else ⌊q⌋ + 1

/-- A plain question row used as a concrete input (its text mentions neither
list nor array). -/
def sampleQuestion : MQ :=
  { id := "q-1", mastery := "python", difficulty_level := "medium"
    difficulty_rating := 40, title := "Sample"
    question_text := "Explain how a virtual environment isolates dependencies."
    expected_outcome := "A clear explanation of environment isolation" }

deriving instance DecidableEq for Except

/- Concrete states, banks and answers used as witness and counterexample
   inputs. -/

/-- A state two answered questions into the session. -/
def gHard : GameState := { initialGameState with session_questions_answered := 2 }

/-- A state at the boss milestone of four answered questions. -/
def gBoss : GameState := { initialGameState with session_questions_answered := 4 }

/-- A fresh state that has already accumulated 150 experience points. -/
def g4 : GameState := { initialGameState with experience_points := 150 }

/-- A fresh state whose boss_battle_ready flag is set. -/
def g7 : GameState := { initialGameState with boss_battle_ready := true }

/-- A question bank holding a single python medium question. -/
def db7 : List MQ := [sampleQuestion]

/-- A medium question of a different mastery (react). -/
def q9 : MQ := { sampleQuestion with mastery := "react" }

/-- A question bank whose only row matches the requested difficulty but not
the requested mastery. -/
def db9 : List MQ := [q9]

/-- An answer with an assignment and more than 20 characters, accepted by
analyze_code_quality. -/
def ansGood : String := "total = total + price * quantity"

/- Data model and flow of main copy 2.py: TestState, check_for_achievements
   and the /get-next-question endpoint driven by agent_sanity. -/

structure QRow where
  id : Int
  expected_outcome : String
deriving DecidableEq

structure TestState where
  mastery : String
  current_question_index : Int
  user_answer : Option String
  previous_story_context : Option String
  power_ups : List String
  artifacts : List String
  agent_sanity : Int
  correct_streak : Int
deriving DecidableEq

/-- The TestState defaults of main copy 2.py for a fresh session. -/
def initialTestState (mastery : String) : TestState :=
  { mastery := mastery, current_question_index := 0, user_answer := none
    previous_story_context := none, power_ups := [], artifacts := []
    agent_sanity := 100, correct_streak := 0 }

/-- check_for_achievements (main copy 2.py, lines 44-49). -/
def check_for_achievements (state : TestState) : Option String :=
  if state.correct_streak = 1 ∧ "First Contact" ∉ state.artifacts then
    some "First Contact"
  else if state.correct_streak = 3 ∧ "Ritualistic Precision" ∉ state.artifacts then
    some "Ritualistic Precision"
  else none

/-- Step 1 of get_next_question in main copy 2.py (lines 74-88): check the
previous answer (substring match of the lowered, stripped expected outcome in
the lowered, stripped user answer) and update agent_sanity and
correct_streak. -/
def v2_check_prev_answer (db : Int → Option QRow) (state : TestState) :
    TestState :=
  if state.current_question_index > 0 ∧ state.user_answer ≠ none then
    match db (state.current_question_index - 1), state.user_answer with
    | some prev, some ans =>
        if hasSubSeq (lowerStrip prev.expected_outcome) (lowerStrip ans) then
          { state with
            agent_sanity := min 100 (state.agent_sanity + 5)
            correct_streak := state.correct_streak + 1 }
        else
          { state with
            agent_sanity := max 0 (state.agent_sanity - 20)
            correct_streak := 0 }
    | _, _ => state
  else state

/-- Step 2 of get_next_question in main copy 2.py (lines 90-93): append a
newly earned artifact if it is not already secured. -/
def v2_secure_artifacts (s1 : TestState) : TestState :=
  match check_for_achievements s1 with
  | some a =>
      if a ∉ s1.artifacts then { s1 with artifacts := s1.artifacts ++ [a] }
      else s1
  | none => s1

/-- Step 3 of get_next_question in main copy 2.py (lines 96-125): if the query
for the next question returned no row, or agent_sanity is exhausted, the
session completes and a terminal artifact is appended ("Lost to Madness" on
sanity loss, otherwise "The Unseen Truth"); otherwise the session continues. -/
def v2_finish (newRow : Option QRow) (s2 : TestState) : String × TestState :=
  if newRow = none ∨ s2.agent_sanity ≤ 0 then
    ("completed",
      if s2.agent_sanity ≤ 0 ∧ "Lost to Madness" ∉ s2.artifacts then
        { s2 with artifacts := s2.artifacts ++ ["Lost to Madness"] }
      else if "The Unseen Truth" ∉ s2.artifacts then
        { s2 with artifacts := s2.artifacts ++ ["The Unseen Truth"] }
      else s2)
  else
    ("in_progress", s2)

/-- get_next_question of main copy 2.py (lines 69-128), as the composition of
its three statement groups.  The filtered and ordered Supabase query for the
session mastery is the external collaborator, modelled as a map from the
offset to at most one row; the story-generation call is external and not part
of the state machine.  Returns the status string and the updated state. -/
def get_next_question_v2 (db : Int → Option QRow) (state : TestState) :
    String × TestState :=
  v2_finish (db state.current_question_index)
    (v2_secure_artifacts (v2_check_prev_answer db state))

/-- A concrete question bank for the failure scenario: ten rows whose expected
outcome never occurs in the submitted answer. -/
def demoDB : Int → Option QRow :=
  fun i => if 0 ≤ i ∧ i < 10 then some { id := i, expected_outcome := "the-coded-sigil" }
    else none

/-- The client-side turn sequence of the failure scenario: the state sent to
the (k+1)-th call of the endpoint, after the client stored the returned state,
advanced the question index and submitted the wrong answer each turn. -/
def scenarioWrongState : Nat → TestState
  | 0 => initialTestState "python"
  | k + 1 =>
      let s := (get_next_question_v2 demoDB (scenarioWrongState k)).2
      { s with
        current_question_index := s.current_question_index + 1
        user_answer := some "wrong" }

/- Field projections of the statement groups, used throughout the proofs. -/

theorem update_eq_pipeline (g : GameState) (ic : Bool) (score : ℚ) :
    update_game_state_after_answer g ic score =
      step_counters (step_badges score (step_level
        (step_performance score (step_answer ic score g)))) := rfl

theorem pyInt_eq_floor {q : ℚ} (h : 0 ≤ q) : pyInt q = ⌊q⌋ := by
  unfold pyInt
  rw [if_neg (not_lt.mpr h), Rat.floor_def', ← Rat.floor_def]

@[simp] theorem step_answer_performance (ic : Bool) (s : ℚ) (st : GameState) :
    (step_answer ic s st).performance_score = st.performance_score := by
  cases ic <;> rfl

@[simp] theorem step_answer_badges (ic : Bool) (s : ℚ) (st : GameState) :
    (step_answer ic s st).badges = st.badges := by
  cases ic <;> rfl

@[simp] theorem step_answer_level (ic : Bool) (s : ℚ) (st : GameState) :
    (step_answer ic s st).player_level = st.player_level := by
  cases ic <;> rfl

@[simp] theorem step_answer_boss (ic : Bool) (s : ℚ) (st : GameState) :
    (step_answer ic s st).boss_battle_ready = st.boss_battle_ready := by
  cases ic <;> rfl

@[simp] theorem step_answer_session (ic : Bool) (s : ℚ) (st : GameState) :
    (step_answer ic s st).session_questions_answered =
      st.session_questions_answered := by
  cases ic <;> rfl

@[simp] theorem step_answer_index (ic : Bool) (s : ℚ) (st : GameState) :
    (step_answer ic s st).current_question_index =
      st.current_question_index := by
  cases ic <;> rfl

@[simp] theorem step_answer_exp_true (s : ℚ) (st : GameState) :
    (step_answer true s st).experience_points =
      st.experience_points + pyInt s := rfl

@[simp] theorem step_answer_exp_false (s : ℚ) (st : GameState) :
    (step_answer false s st).experience_points = st.experience_points := rfl

@[simp] theorem step_answer_streak_true (s : ℚ) (st : GameState) :
    (step_answer true s st).streak_count = st.streak_count + 1 := rfl

@[simp] theorem step_answer_streak_false (s : ℚ) (st : GameState) :
    (step_answer false s st).streak_count = 0 := rfl

@[simp] theorem step_answer_trust_true (s : ℚ) (st : GameState) :
    (step_answer true s st).team_trust =
      st.team_trust.map (fun kv => (kv.1, min 100 (kv.2 + 2))) := rfl

@[simp] theorem step_answer_trust_false (s : ℚ) (st : GameState) :
    (step_answer false s st).team_trust =
      st.team_trust.map (fun kv => (kv.1, max 0 (kv.2 - 5))) := rfl

@[simp] theorem step_performance_perf (s : ℚ) (st : GameState) :
    (step_performance s st).performance_score =
      st.performance_score * (8/10) + s * (2/10) := rfl

@[simp] theorem step_performance_trust (s : ℚ) (st : GameState) :
    (step_performance s st).team_trust = st.team_trust := rfl

@[simp] theorem step_performance_streak (s : ℚ) (st : GameState) :
    (step_performance s st).streak_count = st.streak_count := rfl

@[simp] theorem step_performance_badges (s : ℚ) (st : GameState) :
    (step_performance s st).badges = st.badges := rfl

@[simp] theorem step_performance_exp (s : ℚ) (st : GameState) :
    (step_performance s st).experience_points = st.experience_points := rfl

@[simp] theorem step_performance_level (s : ℚ) (st : GameState) :
    (step_performance s st).player_level = st.player_level := rfl

@[simp] theorem step_performance_boss (s : ℚ) (st : GameState) :
    (step_performance s st).boss_battle_ready = st.boss_battle_ready := rfl

@[simp] theorem step_performance_session (s : ℚ) (st : GameState) :
    (step_performance s st).session_questions_answered =
      st.session_questions_answered := rfl

@[simp] theorem step_level_performance (st : GameState) :
    (step_level st).performance_score = st.performance_score := by
  unfold step_level; split <;> rfl

@[simp] theorem step_level_trust (st : GameState) :
    (step_level st).team_trust = st.team_trust := by
  unfold step_level; split <;> rfl

@[simp] theorem step_level_streak (st : GameState) :
    (step_level st).streak_count = st.streak_count := by
  unfold step_level; split <;> rfl

@[simp] theorem step_level_badges (st : GameState) :
    (step_level st).badges = st.badges := by
  unfold step_level; split <;> rfl

@[simp] theorem step_level_exp (st : GameState) :
    (step_level st).experience_points = st.experience_points := by
  unfold step_level; split <;> rfl

@[simp] theorem step_level_session (st : GameState) :
    (step_level st).session_questions_answered =
      st.session_questions_answered := by
  unfold step_level; split <;> rfl

@[simp] theorem step_badges_performance (s : ℚ) (st : GameState) :
    (step_badges s st).performance_score = st.performance_score := rfl

@[simp] theorem step_badges_trust (s : ℚ) (st : GameState) :
    (step_badges s st).team_trust = st.team_trust := rfl

@[simp] theorem step_badges_streak (s : ℚ) (st : GameState) :
    (step_badges s st).streak_count = st.streak_count := rfl

@[simp] theorem step_badges_badges (s : ℚ) (st : GameState) :
    (step_badges s st).badges = st.badges ++ new_badges s st := rfl

@[simp] theorem step_badges_exp (s : ℚ) (st : GameState) :
    (step_badges s st).experience_points = st.experience_points := rfl

@[simp] theorem step_badges_level (s : ℚ) (st : GameState) :
    (step_badges s st).player_level = st.player_level := rfl

@[simp] theorem step_badges_boss (s : ℚ) (st : GameState) :
    (step_badges s st).boss_battle_ready = st.boss_battle_ready := rfl

@[simp] theorem step_badges_session (s : ℚ) (st : GameState) :
    (step_badges s st).session_questions_answered =
      st.session_questions_answered := rfl

@[simp] theorem step_counters_performance (st : GameState) :
    (step_counters st).performance_score = st.performance_score := rfl

@[simp] theorem step_counters_trust (st : GameState) :
    (step_counters st).team_trust = st.team_trust := rfl

@[simp] theorem step_counters_streak (st : GameState) :
    (step_counters st).streak_count = st.streak_count := rfl

@[simp] theorem step_counters_badges (st : GameState) :
    (step_counters st).badges = st.badges := rfl

@[simp] theorem step_counters_exp (st : GameState) :
    (step_counters st).experience_points = st.experience_points := rfl

@[simp] theorem step_counters_level (st : GameState) :
    (step_counters st).player_level = st.player_level := rfl

@[simp] theorem step_counters_boss (st : GameState) :
    (step_counters st).boss_battle_ready = st.boss_battle_ready := rfl

@[simp] theorem step_counters_session (st : GameState) :
    (step_counters st).session_questions_answered =
      st.session_questions_answered + 1 := rfl

@[simp] theorem step_counters_index (st : GameState) :
    (step_counters st).current_question_index =
      st.current_question_index + 1 := rfl

/- Combined projections of the full state mutator. -/

theorem update_performance_score (g : GameState) (ic : Bool) (s : ℚ) :
    (update_game_state_after_answer g ic s).performance_score =
      g.performance_score * (8/10) + s * (2/10) := by
  rw [update_eq_pipeline]; simp

theorem update_team_trust (g : GameState) (ic : Bool) (s : ℚ) :
    (update_game_state_after_answer g ic s).team_trust =
      g.team_trust.map (fun kv =>
        (kv.1, if ic then min 100 (kv.2 + 2) else max 0 (kv.2 - 5))) := by
  rw [update_eq_pipeline]
  cases ic <;> simp

theorem update_streak_true (g : GameState) (s : ℚ) :
    (update_game_state_after_answer g true s).streak_count =
      g.streak_count + 1 := by
  rw [update_eq_pipeline]; simp

theorem update_streak_false (g : GameState) (s : ℚ) :
    (update_game_state_after_answer g false s).streak_count = 0 := by
  rw [update_eq_pipeline]; simp

theorem update_badges_eq (g : GameState) (ic : Bool) (s : ℚ) :
    (update_game_state_after_answer g ic s).badges =
      g.badges ++
        new_badges s (step_level (step_performance s (step_answer ic s g))) := by
  rw [update_eq_pipeline]; simp

theorem update_boss_mono (g : GameState) (ic : Bool) (s : ℚ)
    (h : g.boss_battle_ready = true) :
    (update_game_state_after_answer g ic s).boss_battle_ready = true := by
  rw [update_eq_pipeline]
  simp only [step_counters_boss, step_badges_boss]
  unfold step_level
  split
  · rfl
  · simp only [step_performance_boss, step_answer_boss]
    exact h

/- Boundedness of performance_score and team_trust under the mutator. -/

theorem update_preserves_stateBounded (g : GameState) (ic : Bool) (s : ℚ)
    (hs0 : 0 ≤ s) (hs1 : s ≤ 100) (hg : stateBounded g) :
    stateBounded (update_game_state_after_answer g ic s) := by
  obtain ⟨⟨hp0, hp1⟩, ht⟩ := hg
  refine ⟨⟨?_, ?_⟩, ?_⟩
  · rw [update_performance_score]; linarith
  · rw [update_performance_score]; linarith
  · intro kv hkv
    rw [update_team_trust] at hkv
    rcases List.mem_map.mp hkv with ⟨ab, hab, rfl⟩
    obtain ⟨h0, h1⟩ := ht ab hab
    cases ic
    · simp only [if_neg Bool.false_ne_true]
      exact ⟨le_max_left _ _, max_le (by norm_num) (by linarith)⟩
    · simp only [if_pos rfl]
      exact ⟨le_min (by norm_num) (by linarith), min_le_left _ _⟩

theorem applyTurns_preserves_stateBounded :
    ∀ (turns : List (Bool × ℚ)) (g : GameState),
      (∀ t ∈ turns, 0 ≤ t.2 ∧ t.2 ≤ 100) → stateBounded g →
      stateBounded (applyTurns turns g)
  | [], _, _, hg => hg
  | t :: ts, g, h, hg => by
      have ht := h t (List.mem_cons_self t ts)
      have hstep : stateBounded (update_game_state_after_answer g t.1 t.2) :=
        update_preserves_stateBounded g t.1 t.2 ht.1 ht.2 hg
      exact applyTurns_preserves_stateBounded ts
        (update_game_state_after_answer g t.1 t.2)
        (fun t' h' => h t' (List.mem_cons_of_mem _ h')) hstep

/- Streak counting under iterated correct answers. -/

theorem applyTurns_correct_streak :
    ∀ (scores : List ℚ) (g : GameState),
      (applyTurns (scores.map fun s => (true, s)) g).streak_count =
        g.streak_count + scores.length
  | [], g => by simp [applyTurns]
  | s :: ss, g => by
      have := applyTurns_correct_streak ss (update_game_state_after_answer g true s)
      simp only [List.map_cons, List.length_cons]
      calc (applyTurns ((true, s) :: ss.map fun x => (true, x)) g).streak_count
          = (applyTurns (ss.map fun x => (true, x))
              (update_game_state_after_answer g true s)).streak_count := rfl
        _ = (update_game_state_after_answer g true s).streak_count + ss.length := this
        _ = g.streak_count + (ss.length + 1) := by
              rw [update_streak_true]; omega

/- Badge uniqueness under the mutator. -/

theorem new_badges_sublist (s : ℚ) (st : GameState) :
    List.Sublist (new_badges s st)
      ["code_warrior", "debugging_master", "perfectionist", "elite_developer"] := by
  have h : List.Sublist (new_badges s st)
      (((["code_warrior"] ++ ["debugging_master"]) ++ ["perfectionist"]) ++
        ["elite_developer"]) := by
    unfold new_badges
    refine List.Sublist.append (List.Sublist.append (List.Sublist.append ?_ ?_) ?_) ?_ <;>
      (split
       · exact List.Sublist.refl _
       · exact List.nil_sublist _)
  simpa using h

theorem mem_new_badges_not_mem (s : ℚ) (st : GameState) (a : String)
    (h : a ∈ new_badges s st) : a ∉ st.badges := by
  unfold new_badges at h
  simp only [List.mem_append] at h
  rcases h with ((h | h) | h) | h <;>
  · split at h
    · rename_i hc
      simp only [List.mem_singleton] at h
      subst h
      exact hc.2
    · simp at h

theorem nodup_append_new_badges (s : ℚ) (st : GameState)
    (h : st.badges.Nodup) : (st.badges ++ new_badges s st).Nodup := by
  rw [List.nodup_append]
  refine ⟨h, ?_, ?_⟩
  · exact List.Nodup.sublist (new_badges_sublist s st) (by decide)
  · intro a ha han
    exact mem_new_badges_not_mem s st a han ha

theorem update_preserves_nodup (g : GameState) (ic : Bool) (s : ℚ)
    (h : g.badges.Nodup) :
    (update_game_state_after_answer g ic s).badges.Nodup := by
  rw [update_badges_eq]
  have hmid :
      (step_level (step_performance s (step_answer ic s g))).badges = g.badges := by
    simp
  rw [← hmid]
  exact nodup_append_new_badges s _ (by rw [hmid]; exact h)

theorem applyTurns_preserves_nodup :
    ∀ (turns : List (Bool × ℚ)) (g : GameState),
      g.badges.Nodup → (applyTurns turns g).badges.Nodup
  | [], _, hg => hg
  | t :: ts, g, hg =>
      applyTurns_preserves_nodup ts (update_game_state_after_answer g t.1 t.2)
        (update_preserves_nodup g t.1 t.2 hg)

/- Exception atomicity: every statement group writes only the updated_state
   component of the memory. -/

theorem runSteps_fst {l : List (GameState × GameState → GameState × GameState)}
    (h : ∀ f ∈ l, ∀ m : GameState × GameState, (f m).1 = m.1) :
    ∀ m : GameState × GameState, (runSteps l m).1 = m.1 := by
  induction l with
  | nil => intro m; rfl
  | cons f fs ih =>
      intro m
      have hf := h f (List.mem_cons_self f fs)
      have hfs : ∀ f' ∈ fs, ∀ m : GameState × GameState, (f' m).1 = m.1 :=
        fun f' h' => h f' (List.mem_cons_of_mem _ h')
      calc (runSteps (f :: fs) m).1 = (runSteps fs (f m)).1 := rfl
        _ = (f m).1 := ih hfs (f m)
        _ = m.1 := hf m

theorem updSteps_fst (ic : Bool) (s : ℚ) :
    ∀ f ∈ updSteps ic s, ∀ m : GameState × GameState, (f m).1 = m.1 := by
  intro f hf
  simp only [updSteps, List.mem_cons, List.not_mem_nil, or_false] at hf
  rcases hf with rfl | rfl | rfl | rfl | rfl | rfl <;> intro m <;> rfl

/- Sanity bounds and the terminal branch of main copy 2.py. -/

theorem v2_check_sanity_bounds (db : Int → Option QRow) (state : TestState)
    (h0 : 0 ≤ state.agent_sanity) (h1 : state.agent_sanity ≤ 100) :
    0 ≤ (v2_check_prev_answer db state).agent_sanity ∧
      (v2_check_prev_answer db state).agent_sanity ≤ 100 := by
  unfold v2_check_prev_answer
  split
  · split
    · split <;> refine ⟨?_, ?_⟩ <;> dsimp only <;>
        simp only [min_def, max_def] <;> split_ifs <;> omega
    all_goals exact ⟨h0, h1⟩
  · exact ⟨h0, h1⟩

theorem v2_secure_sanity (s1 : TestState) :
    (v2_secure_artifacts s1).agent_sanity = s1.agent_sanity := by
  unfold v2_secure_artifacts
  split
  · split <;> rfl
  · rfl

theorem v2_finish_sanity (row : Option QRow) (s2 : TestState) :
    (v2_finish row s2).2.agent_sanity = s2.agent_sanity := by
  unfold v2_finish
  split
  · dsimp only
    split
    · rfl
    · split <;> rfl
  · rfl

theorem v2_out_sanity (db : Int → Option QRow) (state : TestState) :
    (get_next_question_v2 db state).2.agent_sanity =
      (v2_secure_artifacts (v2_check_prev_answer db state)).agent_sanity := by
  unfold get_next_question_v2
  rw [v2_finish_sanity]

theorem v2_sanity_bounds (db : Int → Option QRow) (state : TestState)
    (h0 : 0 ≤ state.agent_sanity) (h1 : state.agent_sanity ≤ 100) :
    0 ≤ (get_next_question_v2 db state).2.agent_sanity ∧
      (get_next_question_v2 db state).2.agent_sanity ≤ 100 := by
  rw [v2_out_sanity, v2_secure_sanity]
  exact v2_check_sanity_bounds db state h0 h1

theorem v2_finish_completed (row : Option QRow) (s2 : TestState)
    (h : s2.agent_sanity ≤ 0) :
    (v2_finish row s2).1 = "completed" ∧
      "Lost to Madness" ∈ (v2_finish row s2).2.artifacts := by
  unfold v2_finish
  rw [if_pos (Or.inr h)]
  refine ⟨rfl, ?_⟩
  dsimp only
  split
  · simp
  · rename_i hc
    have hmem : "Lost to Madness" ∈ s2.artifacts := by
      rcases not_and_or.mp hc with h' | h'
      · exact absurd h h'
      · exact not_not.mp h'
    split
    · simp [hmem]
    · exact hmem

theorem v2_completed_of_sanity_nonpos (db : Int → Option QRow)
    (state : TestState)
    (h : (get_next_question_v2 db state).2.agent_sanity ≤ 0) :
    (get_next_question_v2 db state).1 = "completed" ∧
      "Lost to Madness" ∈ (get_next_question_v2 db state).2.artifacts := by
  rw [v2_out_sanity, v2_secure_sanity] at h
  have hs2 : (v2_secure_artifacts (v2_check_prev_answer db state)).agent_sanity ≤ 0 := by
    rw [v2_secure_sanity]
    exact h
  exact v2_finish_completed (db state.current_question_index) _ hs2

/- Level progression of the mutator. -/

theorem update_levelup (g : GameState) (s : ℚ)
    (hge : g.player_level * 200 ≤ g.experience_points + pyInt s) :
    (update_game_state_after_answer g true s).player_level = g.player_level + 1 ∧
      (update_game_state_after_answer g true s).boss_battle_ready = true := by
  have hcond : (step_performance s (step_answer true s g)).experience_points ≥
      (step_performance s (step_answer true s g)).player_level * 200 := by
    simp only [step_performance_exp, step_answer_exp_true, step_performance_level,
      step_answer_level]
    exact hge
  constructor
  · rw [update_eq_pipeline]
    simp only [step_counters_level, step_badges_level]
    unfold step_level
    rw [if_pos hcond]
    simp
  · rw [update_eq_pipeline]
    simp only [step_counters_boss, step_badges_boss]
    unfold step_level
    rw [if_pos hcond]

theorem update_no_levelup (g : GameState) (s : ℚ)
    (hlt : g.experience_points + pyInt s < g.player_level * 200) :
    (update_game_state_after_answer g true s).player_level = g.player_level ∧
      (update_game_state_after_answer g true s).boss_battle_ready =
        g.boss_battle_ready := by
  have hcond : ¬((step_performance s (step_answer true s g)).experience_points ≥
      (step_performance s (step_answer true s g)).player_level * 200) := by
    simp only [step_performance_exp, step_answer_exp_true, step_performance_level,
      step_answer_level]
    exact not_le.mpr hlt
  constructor
  · rw [update_eq_pipeline]
    simp only [step_counters_level, step_badges_level]
    unfold step_level
    rw [if_neg hcond]
    simp
  · rw [update_eq_pipeline]
    simp only [step_counters_boss, step_badges_boss]
    unfold step_level
    rw [if_neg hcond]
    simp

/- The progression thresholds and the question-selection cascade. -/

theorem ddp_boss_iff (g : GameState) :
    (determine_difficulty_progression g).1 = "boss" ↔
      4 ≤ g.session_questions_answered := by
  unfold determine_difficulty_progression
  dsimp only
  split_ifs with h1 h2 <;> constructor <;> intro hx <;>
    first
      | rfl
      | omega
      | exact absurd hx (by decide)

theorem pyRandomChoice_mem {α : Type} (l : List α) (r : Nat) (q : α)
    (h : pyRandomChoice l r = some q) : q ∈ l :=
  List.get?_mem h

theorem pyRandomChoice_eq_none {α : Type} (l : List α) (r : Nat) :
    pyRandomChoice l r = none ↔ l = [] := by
  unfold pyRandomChoice
  constructor
  · intro h
    rcases l with _ | ⟨a, l⟩
    · rfl
    · exfalso
      have hlen : r % (a :: l).length < (a :: l).length :=
        Nat.mod_lt _ (by simp)
      rw [List.get?_eq_none] at h
      omega
  · intro h
    subst h
    rfl

/- The fallback code-quality heuristic. -/

theorem analyze_true_imp (user_answer : String) (q : MQ)
    (h : analyze_code_quality user_answer q = true) :
    5 ≤ (pyStrip user_answer.toList).length ∧
      (pyStrip user_answer.toList).contains '=' = true := by
  unfold analyze_code_quality at h
  dsimp only at h
  split at h
  · exact absurd h (by simp)
  · rename_i hlen
    refine ⟨by omega, ?_⟩
    split at h <;>
    · simp only [Bool.and_eq_true] at h
      exact h.1.1

/- Claim theorems. -/

/-- C1: starting from a state whose vitality (performance_score, and
agent_sanity in the copy-2 variant) and team_trust entries lie in [0,100],
every state update keeps them in [0,100], after every prefix of any turn
sequence whose evaluation scores lie in [0,100]; each answer moves every
team_trust entry by a fixed gain clamped at 100 (correct) or a larger fixed
loss clamped at 0 (incorrect), and the copy-2 sanity update is likewise
clamped into [0,100]. -/
theorem C1_vitality_and_trust_bounded :
    (∀ (turns : List (Bool × ℚ)) (g : GameState),
        (∀ t ∈ turns, 0 ≤ t.2 ∧ t.2 ≤ 100) → stateBounded g →
        ∀ k : Nat, stateBounded (applyTurns (turns.take k) g)) ∧
    (∀ (g : GameState) (ic : Bool) (s : ℚ),
        (update_game_state_after_answer g ic s).team_trust =
          g.team_trust.map (fun kv =>
            (kv.1, if ic then min 100 (kv.2 + 2) else max 0 (kv.2 - 5)))) ∧
    (∀ (db : Int → Option QRow) (state : TestState),
        0 ≤ state.agent_sanity → state.agent_sanity ≤ 100 →
        0 ≤ (get_next_question_v2 db state).2.agent_sanity ∧
          (get_next_question_v2 db state).2.agent_sanity ≤ 100) := by
  refine ⟨?_, update_team_trust, v2_sanity_bounds⟩
  intro turns g h hg k
  exact applyTurns_preserves_stateBounded (turns.take k) g
    (fun t ht => h t (List.take_subset k turns ht)) hg

theorem C1_vitality_and_trust_bounded_witness :
    ((∀ t ∈ ([(true, (97 : ℚ)), (false, 3)] : List (Bool × ℚ)),
        0 ≤ t.2 ∧ t.2 ≤ 100) ∧
      stateBounded initialGameState ∧
      0 ≤ (initialTestState "python").agent_sanity ∧
      (initialTestState "python").agent_sanity ≤ 100) ∧
    stateBounded
      (applyTurns (([(true, (97 : ℚ)), (false, 3)] : List (Bool × ℚ)).take 2)
        initialGameState) ∧
    (0 ≤ (get_next_question_v2 demoDB (initialTestState "python")).2.agent_sanity ∧
      (get_next_question_v2 demoDB (initialTestState "python")).2.agent_sanity ≤ 100) :=
  ⟨⟨by decide, by decide, by decide, by decide⟩,
    C1_vitality_and_trust_bounded.1 [(true, 97), (false, 3)] initialGameState
      (by decide) (by decide) 2,
    C1_vitality_and_trust_bounded.2.2 demoDB (initialTestState "python")
      (by decide) (by decide)⟩

/-- C2: whenever the vitality scalar (agent_sanity in main copy 2.py) is
exhausted (at most 0) after the answer-processing phase of a turn, that turn
returns the terminal "completed" status with the terminal failure artifact
"Lost to Madness" secured; the witness below runs the concrete scenario of
five consecutive incorrect answers at a loss of 20 from a fresh state with
sanity 100, reaching sanity exactly 0 and the completed/failure outcome. -/
theorem C2_sanity_exhaustion_completes
    (db : Int → Option QRow) (state : TestState)
    (h : (get_next_question_v2 db state).2.agent_sanity ≤ 0) :
    (get_next_question_v2 db state).1 = "completed" ∧
      "Lost to Madness" ∈ (get_next_question_v2 db state).2.artifacts :=
  v2_completed_of_sanity_nonpos db state h

theorem C2_sanity_exhaustion_completes_witness :
    (get_next_question_v2 demoDB (scenarioWrongState 5)).2.agent_sanity = 0 ∧
    ((get_next_question_v2 demoDB (scenarioWrongState 5)).1 = "completed" ∧
      "Lost to Madness" ∈
        (get_next_question_v2 demoDB (scenarioWrongState 5)).2.artifacts) :=
  ⟨by decide, C2_sanity_exhaustion_completes demoDB (scenarioWrongState 5) (by decide)⟩

/-- C5: one incorrect answer sets streak_count to exactly 0 for every state;
streak_count is 0 on session start; and N consecutive correct answers from a
fresh session yield streak_count = N, for every N and every score sequence. -/
theorem C5_streak_reset_and_count :
    (∀ (g : GameState) (s : ℚ),
        (update_game_state_after_answer g false s).streak_count = 0) ∧
    initialGameState.streak_count = 0 ∧
    (∀ scores : List ℚ,
        (applyTurns (scores.map fun s => (true, s)) initialGameState).streak_count =
          scores.length) := by
  refine ⟨fun g s => update_streak_false g s, rfl, ?_⟩
  intro scores
  have h := applyTurns_correct_streak scores initialGameState
  simpa [initialGameState] using h

/-- C6: the badge list never acquires duplicates: starting from any state
whose badges are duplicate-free, after any sequence of state updates the
badges remain duplicate-free, because every badge is appended only when its
identifier is absent. -/
theorem C6_badges_nodup (turns : List (Bool × ℚ)) (g : GameState)
    (h : g.badges.Nodup) : (applyTurns turns g).badges.Nodup :=
  applyTurns_preserves_nodup turns g h

theorem C6_badges_nodup_witness :
    initialGameState.badges.Nodup ∧
    (applyTurns [(true, 100), (false, 100), (true, 100)] initialGameState).badges.Nodup :=
  ⟨by decide,
    C6_badges_nodup [(true, 100), (false, 100), (true, 100)] initialGameState (by decide)⟩

/-- C10: if an exception interrupts the try block of
update_game_state_after_answer after any number of completed statement
groups, the except branch returns the original input state unchanged: the
whole body mutates only the fresh copy, never the input, so the failed
update is atomic and surfaces no error. -/
theorem C10_update_exception_returns_input (ic : Bool) (s : ℚ) (k : Nat)
    (g : GameState) (h : k < (updSteps ic s).length) :
    update_result_with_fault ic s k g = g := by
  unfold update_result_with_fault
  rw [if_pos h]
  exact runSteps_fst
    (fun f hf => updSteps_fst ic s f (List.take_subset k _ hf)) (g, g)

theorem C10_update_exception_returns_input_witness :
    3 < (updSteps true 75).length ∧
    update_result_with_fault true 75 3 initialGameState = initialGameState :=
  ⟨by decide,
    C10_update_exception_returns_input true 75 3 initialGameState (by decide)⟩

/-- C3: the progression policy is a deterministic function of
session_questions_answered with the fixed thresholds of main.py (below 2
medium, from 2 below 4 hard, from 4 boss), the tier is monotonically
non-decreasing in the counter, and mastery is passed through unchanged.  At
the boss milestone 4 the decision variables are indeed set to the boss tier
with the boss-battle flag (conjunct 6), but the endpoint then deterministically
fails with HTTP 500 instead of serving that question: line 736 calls
generate_boss_battle_narrative, which exists only nested inside
generate_immersive_narrative, so every boss-flagged request raises NameError
— the spec's intended boss turn is unreachable (a code bug, not a policy). -/
theorem C3_progression_policy :
    (∀ g : GameState, g.session_questions_answered < 2 →
        (determine_difficulty_progression g).1 = "medium") ∧
    (∀ g : GameState, 2 ≤ g.session_questions_answered →
        g.session_questions_answered < 4 →
        (determine_difficulty_progression g).1 = "hard") ∧
    (∀ g : GameState, 4 ≤ g.session_questions_answered →
        (determine_difficulty_progression g).1 = "boss") ∧
    (∀ g g' : GameState,
        g.session_questions_answered ≤ g'.session_questions_answered →
        tierRank (determine_difficulty_progression g).1 ≤
          tierRank (determine_difficulty_progression g').1) ∧
    (∀ g : GameState,
        (determine_difficulty_progression g).2 = g.selected_mastery) ∧
    (∀ (db : List MQ) (r1 r2 : Nat) (nok : Bool) (g : GameState),
        4 ≤ g.session_questions_answered →
        (determine_difficulty_progression g).1 = "boss" ∧
        is_boss_battle_check g = true ∧
        get_next_question db r1 r2 nok g = Except.error 500) := by
  refine ⟨?_, ?_, ?_, ?_, ?_, ?_⟩
  · intro g h
    unfold determine_difficulty_progression
    dsimp only
    rw [if_pos h]
  · intro g h1 h2
    unfold determine_difficulty_progression
    dsimp only
    rw [if_neg (by omega), if_pos h2]
  · intro g h
    unfold determine_difficulty_progression
    dsimp only
    rw [if_neg (by omega), if_neg (by omega)]
  · intro g g' h
    unfold determine_difficulty_progression
    dsimp only
    split_ifs <;> first | decide | omega
  · intro g
    rfl
  · intro db r1 r2 nok g h
    have hd : (determine_difficulty_progression g).1 = "boss" := by
      unfold determine_difficulty_progression
      dsimp only
      rw [if_neg (by omega), if_neg (by omega)]
    have hb : is_boss_battle_check g = true := by
      unfold is_boss_battle_check
      rw [decide_eq_true (show g.session_questions_answered ≥ 4 from h)]
      exact Bool.or_true _
    refine ⟨hd, hb, ?_⟩
    unfold get_next_question
    dsimp only
    rw [hd]
    unfold get_question_from_db
    rw [if_pos rfl]
    dsimp only
    rw [if_pos hb]

theorem C3_progression_policy_witness :
    (determine_difficulty_progression initialGameState).1 = "medium" ∧
    (determine_difficulty_progression gHard).1 = "hard" ∧
    (determine_difficulty_progression gBoss).1 = "boss" ∧
    tierRank (determine_difficulty_progression initialGameState).1 ≤
      tierRank (determine_difficulty_progression gBoss).1 ∧
    (determine_difficulty_progression initialGameState).2 =
      initialGameState.selected_mastery ∧
    ((determine_difficulty_progression gBoss).1 = "boss" ∧
      is_boss_battle_check gBoss = true ∧
      get_next_question [] 0 0 true gBoss = Except.error 500) :=
  ⟨C3_progression_policy.1 initialGameState (by decide),
    C3_progression_policy.2.1 gHard (by decide) (by decide),
    C3_progression_policy.2.2.1 gBoss (by decide),
    C3_progression_policy.2.2.2.1 initialGameState gBoss (by decide),
    C3_progression_policy.2.2.2.2.1 initialGameState,
    C3_progression_policy.2.2.2.2.2 [] 0 0 true gBoss (by decide)⟩

/-- C4 counterexample: from a fresh state with 150 experience points, a
correct answer with score 85.7 leaves experience_points at 235 after the
level-up: the mutator adds int(score) = 85 (the claimed round(85.7) = 86
would give 236) and does not reset experience_points, neither to 0 nor to a
remainder past the 200-point threshold (35 or 36). -/
theorem C4_experience_counterexample :
    (update_game_state_after_answer g4 true (857/10)).experience_points = 235 ∧
    (update_game_state_after_answer g4 true (857/10)).player_level = 2 ∧
    (update_game_state_after_answer g4 true (857/10)).boss_battle_ready = true ∧
    g4.experience_points + round_spec (857/10) = 236 ∧
    (235 : Int) ≠ 0 ∧ (235 : Int) ≠ 35 ∧ (235 : Int) ≠ 36 := by
  have hpy : pyInt (857/10 : ℚ) = 85 := by
    rw [pyInt_eq_floor (by norm_num)]
    norm_num
  have hlv := update_levelup g4 (857/10) (by rw [hpy]; decide)
  have hr : round_spec (857/10 : ℚ) = 86 := by
    unfold round_spec
    rw [show (⌊(857/10 : ℚ)⌋ : Int) = 85 by norm_num]
    rw [if_neg (by norm_num), if_pos (by norm_num)]
    decide
  refine ⟨?_, ?_, hlv.2, ?_, by decide, by decide, by decide⟩
  · rw [update_eq_pipeline]
    simp only [step_counters_exp, step_badges_exp, step_level_exp,
      step_performance_exp, step_answer_exp_true, hpy]
    decide
  · rw [hlv.1]
    decide
  · rw [hr]
    decide

/-- C4 amended: on a correct answer the mutator adds the truncation
int(score) (the floor, for the non-negative scores of the data model) to
experience_points; when the accumulated experience_points reach or exceed
player_level * 200 it increments player_level by exactly 1 and sets
boss_battle_ready, leaving experience_points unchanged (no reset to 0 or to a
remainder); below the threshold level and flag are untouched. -/
theorem C4_experience_truncation_no_reset (g : GameState) (s : ℚ)
    (h : 0 ≤ s) :
    (update_game_state_after_answer g true s).experience_points =
        g.experience_points + ⌊s⌋ ∧
    (g.player_level * 200 ≤ g.experience_points + ⌊s⌋ →
      (update_game_state_after_answer g true s).player_level =
          g.player_level + 1 ∧
        (update_game_state_after_answer g true s).boss_battle_ready = true) ∧
    (g.experience_points + ⌊s⌋ < g.player_level * 200 →
      (update_game_state_after_answer g true s).player_level = g.player_level ∧
        (update_game_state_after_answer g true s).boss_battle_ready =
          g.boss_battle_ready) := by
  have hpy := pyInt_eq_floor h
  refine ⟨?_, ?_, ?_⟩
  · rw [update_eq_pipeline]
    simp only [step_counters_exp, step_badges_exp, step_level_exp,
      step_performance_exp, step_answer_exp_true, hpy]
  · intro hge
    exact update_levelup g s (by rw [hpy]; exact hge)
  · intro hlt
    exact update_no_levelup g s (by rw [hpy]; exact hlt)

theorem C4_experience_truncation_no_reset_witness :
    ((0 : ℚ) ≤ 85 ∧
      g4.player_level * 200 ≤ g4.experience_points + ⌊(85 : ℚ)⌋ ∧
      initialGameState.experience_points + ⌊(85 : ℚ)⌋ <
        initialGameState.player_level * 200) ∧
    (update_game_state_after_answer g4 true 85).experience_points =
      g4.experience_points + ⌊(85 : ℚ)⌋ ∧
    ((update_game_state_after_answer g4 true 85).player_level =
        g4.player_level + 1 ∧
      (update_game_state_after_answer g4 true 85).boss_battle_ready = true) ∧
    ((update_game_state_after_answer initialGameState true 85).player_level =
        initialGameState.player_level ∧
      (update_game_state_after_answer initialGameState true 85).boss_battle_ready =
        initialGameState.boss_battle_ready) :=
  ⟨⟨by norm_num, by norm_num [g4, initialGameState], by norm_num [initialGameState]⟩,
    (C4_experience_truncation_no_reset g4 85 (by norm_num)).1,
    (C4_experience_truncation_no_reset g4 85 (by norm_num)).2.1
      (by norm_num [g4, initialGameState]),
    (C4_experience_truncation_no_reset initialGameState 85 (by norm_num)).2.2
      (by norm_num [initialGameState])⟩

/-- C7 counterexample: with boss_battle_ready set and zero questions
answered, no boss-tier question is served at all — the request fails with
HTTP 500 (the boss narrative function is unbound at module level), the tier
the progression would select is "medium" (the policy ignores the flag), and
the flag is still true after a further state update: neither a forced
boss-tier question nor a reset exists. -/
theorem C7_boss_flag_counterexample :
    g7.boss_battle_ready = true ∧
    get_next_question db7 0 0 true g7 = Except.error 500 ∧
    (determine_difficulty_progression g7).1 = "medium" ∧
    ("medium" : String) ≠ "boss" ∧
    (update_game_state_after_answer g7 false 10).boss_battle_ready = true := by
  exact ⟨rfl, by decide, rfl, by decide, by decide⟩

/-- C7 amended: once boss_battle_ready is true, no question is served at all:
every /get_next_question request with the flag set deterministically fails
with HTTP 500, because line 736 calls generate_boss_battle_narrative, which
is defined only nested inside generate_immersive_narrative and is unbound at
module level (NameError, converted by the blanket handler).  The progression
policy ignores the flag — the tier is the boss tier exactly when the counter
has reached 4 — and nothing ever resets the flag: the state mutator only
ever sets it, so it stays true for all later turns. -/
theorem C7_boss_flag_amended (db : List MQ) (r1 r2 : Nat) (nok : Bool)
    (g : GameState) (hb : g.boss_battle_ready = true) :
    get_next_question db r1 r2 nok g = Except.error 500 ∧
    ((determine_difficulty_progression g).1 = "boss" ↔
      4 ≤ g.session_questions_answered) ∧
    (∀ (ic : Bool) (s : ℚ),
      (update_game_state_after_answer g ic s).boss_battle_ready = true) := by
  have hflag : is_boss_battle_check g = true := by
    unfold is_boss_battle_check
    rw [hb]
    exact Bool.true_or _
  refine ⟨?_, ddp_boss_iff g, fun ic s => update_boss_mono g ic s hb⟩
  unfold get_next_question
  dsimp only
  cases hq : get_question_from_db db r1 r2
      (determine_difficulty_progression g).1
      (determine_difficulty_progression g).2 with
  | none => rfl
  | some q =>
      dsimp only
      rw [if_pos hflag]

theorem C7_boss_flag_amended_witness :
    g7.boss_battle_ready = true ∧
    (get_next_question db7 0 0 true g7 = Except.error 500 ∧
      ((determine_difficulty_progression g7).1 = "boss" ↔
        4 ≤ g7.session_questions_answered) ∧
      (update_game_state_after_answer g7 false 10).boss_battle_ready = true) :=
  ⟨rfl,
    (C7_boss_flag_amended db7 0 0 true g7 rfl).1,
    (C7_boss_flag_amended db7 0 0 true g7 rfl).2.1,
    (C7_boss_flag_amended db7 0 0 true g7 rfl).2.2 false 10⟩

/-- C8 counterexample: with the judgment model unconfigured (unavailable),
the evaluator judges a 12-character answer with no domain syntax token at all
as correct with score 75, while the single heuristic the claim describes
(non-trivial length AND presence of a syntax token) — which the code applies
only on the exception path, via analyze_code_quality — judges it incorrect. -/
theorem C8_unavailable_ignores_tokens_counterexample :
    evaluate_user_answer_onFailure ServiceFailure.unavailable "zzzzzzzzzzzz"
        sampleQuestion = (true, 75) ∧
    spec_fallback_heuristic "zzzzzzzzzzzz" = false ∧
    analyze_code_quality "zzzzzzzzzzzz" sampleQuestion = false := by
  exact ⟨by decide, by decide, by decide⟩

/-- C8 amended: neither service-failure path of the evaluator propagates an
error; both return the fixed default score 75 when judged correct and 25
otherwise.  On the exception path the verdict is the deterministic
analyze_code_quality heuristic, whose acceptance requires a non-trivially
long answer (at least 5 stripped characters) containing an assignment token;
on the model-unconfigured path the verdict is by stripped answer length alone
(more than 10 characters), with no syntax-token check. -/
theorem C8_failure_paths (f : ServiceFailure) (user_answer : String) (q : MQ) :
    ((evaluate_user_answer_onFailure f user_answer q).2 =
      if (evaluate_user_answer_onFailure f user_answer q).1 then 75 else 25) ∧
    (f = ServiceFailure.raises →
      (evaluate_user_answer_onFailure f user_answer q).1 =
        analyze_code_quality user_answer q) ∧
    (f = ServiceFailure.raises →
      (evaluate_user_answer_onFailure f user_answer q).1 = true →
      5 ≤ (pyStrip user_answer.toList).length ∧
        (pyStrip user_answer.toList).contains '=' = true) ∧
    (f = ServiceFailure.unavailable →
      ((evaluate_user_answer_onFailure f user_answer q).1 = true ↔
        10 < (pyStrip user_answer.toList).length)) := by
  cases f
  · refine ⟨rfl, ?_, ?_, ?_⟩
    · intro h
      exact absurd h (by decide)
    · intro h
      exact absurd h (by decide)
    · intro _
      simp [evaluate_user_answer_onFailure]
  · refine ⟨rfl, fun _ => rfl, ?_, ?_⟩
    · intro _ h
      exact analyze_true_imp user_answer q h
    · intro h
      exact absurd h (by decide)

theorem C8_failure_paths_witness :
    ((evaluate_user_answer_onFailure ServiceFailure.raises ansGood
        sampleQuestion).2 =
      if (evaluate_user_answer_onFailure ServiceFailure.raises ansGood
        sampleQuestion).1 then 75 else 25) ∧
    ((evaluate_user_answer_onFailure ServiceFailure.raises ansGood
        sampleQuestion).1 = analyze_code_quality ansGood sampleQuestion) ∧
    (5 ≤ (pyStrip ansGood.toList).length ∧
      (pyStrip ansGood.toList).contains '=' = true) ∧
    ((evaluate_user_answer_onFailure ServiceFailure.unavailable ansGood
        sampleQuestion).1 = true ↔ 10 < (pyStrip ansGood.toList).length) :=
  ⟨(C8_failure_paths ServiceFailure.raises ansGood sampleQuestion).1,
    (C8_failure_paths ServiceFailure.raises ansGood sampleQuestion).2.1 rfl,
    (C8_failure_paths ServiceFailure.raises ansGood sampleQuestion).2.2.1 rfl
      (by decide),
    (C8_failure_paths ServiceFailure.unavailable ansGood sampleQuestion).2.2.2
      rfl⟩

/-- C9 counterexample: for a request (medium, python) against a bank whose
only row is a medium react question, the selector returns None even though a
question at the requested difficulty exists (the claimed second widening step
— drop mastery, keep difficulty — would have found it), and the caller turns
None into an error: the HTTPException(404) of line 732 is swallowed by the
blanket handler of line 764 and surfaced as HTTP 500 — not a
Completed(success) outcome. -/
theorem C9_fallback_counterexample :
    get_question_from_db db9 0 0 "medium" "python" = none ∧
    db9.filter (fun q => decide (q.difficulty_level = "medium")) ≠ [] ∧
    get_next_question db9 0 0 true initialGameState = Except.error 500 := by
  exact ⟨by decide, by decide, by decide⟩

/-- C9 amended: for non-boss requests the selector tries an exact
(mastery, difficulty) match and then exactly one fallback, dropping only the
difficulty filter and keeping mastery — hence every question it returns has
the requested mastery, and it returns None exactly when the bank has no row
of that mastery.  On None the caller raises HTTP 404 internally, but the
endpoint's blanket exception handler converts it and the request surfaces as
an HTTP 500 error (no Completed(success) outcome exists on this path). -/
theorem C9_fallback_widening :
    (∀ (db : List MQ) (r1 r2 : Nat) (d m : String), d ≠ "boss" →
      (∀ q, get_question_from_db db r1 r2 d m = some q → q.mastery = m) ∧
      (get_question_from_db db r1 r2 d m = none ↔
        db.filter (fun q => decide (q.mastery = m)) = [])) ∧
    (∀ (db : List MQ) (r1 r2 : Nat) (nok : Bool) (g : GameState),
      get_question_from_db db r1 r2 (determine_difficulty_progression g).1
        (determine_difficulty_progression g).2 = none →
      get_next_question db r1 r2 nok g = Except.error 500) := by
  constructor
  · intro db r1 r2 d m hd
    constructor
    · intro q hq
      unfold get_question_from_db at hq
      rw [if_neg hd] at hq
      cases h1 : pyRandomChoice (db.filter fun q' =>
          decide (q'.mastery = m) && decide (q'.difficulty_level = d)) r1 with
      | some q' =>
          rw [h1] at hq
          dsimp only at hq
          obtain rfl := Option.some.inj hq
          have hmem := List.mem_filter.mp (pyRandomChoice_mem _ r1 q' h1)
          have := hmem.2
          simp only [Bool.and_eq_true, decide_eq_true_eq] at this
          exact this.1
      | none =>
          rw [h1] at hq
          dsimp only at hq
          have hmem := List.mem_filter.mp (pyRandomChoice_mem _ r2 q hq)
          have := hmem.2
          simp only [decide_eq_true_eq] at this
          exact this
    · constructor
      · intro h
        unfold get_question_from_db at h
        rw [if_neg hd] at h
        cases h1 : pyRandomChoice (db.filter fun q' =>
            decide (q'.mastery = m) && decide (q'.difficulty_level = d)) r1 with
        | some q' =>
            rw [h1] at h
            simp at h
        | none =>
            rw [h1] at h
            dsimp only at h
            exact (pyRandomChoice_eq_none _ r2).mp h
      · intro h
        unfold get_question_from_db
        rw [if_neg hd]
        have hboth : db.filter (fun q =>
            decide (q.mastery = m) && decide (q.difficulty_level = d)) = [] := by
          rw [List.filter_eq_nil_iff] at h ⊢
          intro a ha hc
          simp only [Bool.and_eq_true, decide_eq_true_eq] at hc
          exact h a ha (by simp only [decide_eq_true_eq]; exact hc.1)
        rw [hboth, h]
        rfl
  · intro db r1 r2 nok g h
    unfold get_next_question
    dsimp only
    rw [h]

theorem C9_fallback_widening_witness :
    sampleQuestion.mastery = "python" ∧
    (get_question_from_db db9 0 0 "medium" "python" = none ↔
      db9.filter (fun q => decide (q.mastery = "python")) = []) ∧
    get_next_question db9 0 0 true initialGameState = Except.error 500 :=
  ⟨(C9_fallback_widening.1 db7 0 0 "medium" "python" (by decide)).1
      sampleQuestion (by decide),
    (C9_fallback_widening.1 db9 0 0 "medium" "python" (by decide)).2,
    C9_fallback_widening.2 db9 0 0 true initialGameState (by decide)⟩

end Pravya
